import Mathlib

/-!
# Verification of the `collatz_backoff` repository

Shallow embedding of the two Python implementations of the Collatz-seeded
backoff schedule:

* `src/src/collatz_backoff/core.py` — the packaged engine
  (`collatz_step`, `collatz_iter`, `BackoffConfig`, `CollatzBackoff`
  with `affine_params`, `offset_slot`, `wait_micros`, `wait_seconds`,
  and the module-level `collatz_seeded_backoff_seconds`);
* `src/collatz_backoff.py` — the stand-alone script variant
  (embedded in the `Script` namespace).

Modelling conventions:

* Python's arbitrary-precision `int` is `ℤ`; Python `%` with a positive
  modulus agrees with `Int.emod`, and Python `//` (floor division) is
  `Int.fdiv`.
* Python `float` values are modelled as exact rationals `ℚ`; the builtin
  `round` (banker's rounding, ties to even) is `pyRound` below.
* Python `n | 1` sets the lowest bit of the two's-complement integer,
  i.e. it is `n + 1` for even `n` and `n` for odd `n` (`lor1` below);
  Python `n >> 3` is an arithmetic shift, defined by the language as
  floor division by `2^3` (`shr3` below).
* A Python `for _ in range(k)` loop runs `max k 0` times, hence the
  `Int.toNat` in `collatz_iter`.
* `raise` is modelled with `Except String`.
-/

/-- One Collatz step with odd shortcut: `n // 2` if `n` is even else
`(3*n + 1) // 2` (from `core.py`, `collatz_step`; the script file has an
identical copy). -/
def collatz_step (n : ℤ) : ℤ :=
  if n % 2 = 0 then n.fdiv 2 else (3 * n + 1).fdiv 2

/-- `collatz_iter` specialised to a natural iteration count: apply
`collatz_step` `k` times starting from `seed`. -/
def collatz_iterN (seed : ℤ) : ℕ → ℤ
  | 0 => seed
  | k + 1 => collatz_step (collatz_iterN seed k)

/-- Iterate Collatz `k` times (from `core.py`, `collatz_iter`; the loop
`for _ in range(k)` runs `k.toNat` times). -/
def collatz_iter (seed k : ℤ) : ℤ :=
  collatz_iterN seed k.toNat

/-- Python `n | 1`: set the lowest bit of the two's-complement integer. -/
def lor1 (n : ℤ) : ℤ :=
  if n % 2 = 0 then n + 1 else n

/-- Python `n >> 3`: arithmetic right shift by 3, which Python defines as
floor division by `2^3 = 8`. -/
def shr3 (n : ℤ) : ℤ :=
  n.fdiv 8

/-- Python's builtin `round` on a real value: nearest integer, ties to
even. -/
def pyRound (q : ℚ) : ℤ :=
  let f := q.floor
  let r := q - (f : ℚ)
  if r < 1/2 then f
  else if 1/2 < r then f + 1
  else if f % 2 = 0 then f else f + 1

/-- `BackoffConfig` dataclass (identical field lists and defaults in
`core.py` and the script file; Python float defaults `0.05` and `10.0`
are modelled as the exact rationals they denote). -/
structure BackoffConfig where
  base_seconds : ℚ := 1/20
  slot_ms : ℤ := 1
  slots_M : ℤ := 1024
  collatz_seed : ℤ := 27
  cap_seconds : ℚ := 10
deriving DecidableEq

/-- `BackoffConfig()` with all defaults. -/
def defaultCfg : BackoffConfig := {}

/-- `BackoffConfig.validate` from `core.py`: raises `ValueError` on the
first violated bound. -/
def BackoffConfig.validate (cfg : BackoffConfig) : Except String Unit :=
  if cfg.base_seconds ≤ 0 then .error "base_seconds must be > 0"
  else if cfg.slot_ms ≤ 0 then .error "slot_ms must be > 0"
  else if cfg.slots_M ≤ 1 then .error "slots_M must be > 1"
  else if cfg.cap_seconds ≤ 0 then .error "cap_seconds must be > 0"
  else .ok ()

/-- The engine object of `core.py`: it only stores its validated config. -/
structure CollatzBackoff where
  cfg : BackoffConfig
deriving DecidableEq

/-- `CollatzBackoff.__init__`: validate the config (propagating its
exception), then store it. -/
def CollatzBackoff.init (cfg : BackoffConfig) : Except String CollatzBackoff :=
  match cfg.validate with
  | .error e => .error e
  | .ok _ => .ok ⟨cfg⟩

/-- `CollatzBackoff.affine_params` from `core.py`: derive `(a_k, b_k)`
from the `(k+1)`-st Collatz iterate, forcing `a` odd, nonzero, and
(via the gcd fallback) invertible mod `M`. -/
def CollatzBackoff.affine_params (self : CollatzBackoff) (k : ℤ) : ℤ × ℤ :=
  let M := self.cfg.slots_M
  let n := collatz_iter self.cfg.collatz_seed (k + 1)
  let a := lor1 n % M
  let a := if a = 0 then 1 else a
  let b := shr3 n % M
  let a := if Int.gcd a M ≠ 1 then 1 else a
  (a, b)

/-- `CollatzBackoff.offset_slot` from `core.py`: deterministic per-step
slot index `(a * id + b) % M`. -/
def CollatzBackoff.offset_slot (self : CollatzBackoff) (node_id retry_k : ℤ) : ℤ :=
  let M := self.cfg.slots_M
  let p := self.affine_params retry_k
  (p.1 * node_id + p.2) % M

/-- `CollatzBackoff.wait_micros` from `core.py`: integer wait time in
microseconds, `min(cap_us, base_us + jitter_us)`. -/
def CollatzBackoff.wait_micros (self : CollatzBackoff) (node_id retry_k : ℤ) : ℤ :=
  let base_us := pyRound (self.cfg.base_seconds * (2 : ℚ) ^ retry_k * 1000000)
  let jitter_us := self.offset_slot node_id retry_k * self.cfg.slot_ms * 1000
  let cap_us := pyRound (self.cfg.cap_seconds * 1000000)
  min cap_us (base_us + jitter_us)

/-- `CollatzBackoff.wait_seconds` from `core.py`: the float wait in
seconds, obtained from `wait_micros` by dividing by `1_000_000.0`. -/
def CollatzBackoff.wait_seconds (self : CollatzBackoff) (node_id retry_k : ℤ) : ℚ :=
  (self.wait_micros node_id retry_k : ℚ) / 1000000

/-- Module-level `collatz_seeded_backoff_seconds` from `core.py`:
construct the engine (validating the config) and return its
`wait_seconds`. -/
def collatz_seeded_backoff_seconds (node_id retry_k : ℤ) (cfg : BackoffConfig) :
    Except String ℚ :=
  match CollatzBackoff.init cfg with
  | .error e => .error e
  | .ok b => .ok (b.wait_seconds node_id retry_k)

namespace Script

/-- `affine_params_from_collatz` from the script `src/collatz_backoff.py`:
like the core `affine_params` but WITHOUT the gcd fallback. -/
def affine_params_from_collatz (k seed M : ℤ) : ℤ × ℤ :=
  let n := collatz_iter seed (k + 1)
  let a := lor1 n % M
  let a := if a = 0 then 1 else a
  let b := shr3 n % M
  (a, b)

/-- `collatz_perm_offset` from the script file. -/
def collatz_perm_offset (node_id k M seed : ℤ) : ℤ :=
  let p := affine_params_from_collatz k seed M
  (p.1 * node_id + p.2) % M

/-- Module-level `collatz_seeded_backoff_seconds` from the script file:
computed directly in float seconds, `min(cap, base*2^k + offset*slot_ms/1000)`. -/
def collatz_seeded_backoff_seconds (node_id retry_k : ℤ) (cfg : BackoffConfig) : ℚ :=
  let offset := collatz_perm_offset node_id retry_k cfg.slots_M cfg.collatz_seed
  let jitter := ((offset * cfg.slot_ms : ℤ) : ℚ) / 1000
  let wait := cfg.base_seconds * (2 : ℚ) ^ retry_k + jitter
  min cfg.cap_seconds wait

end Script

/-- Reference derivation of the per-step affine parameters, following the
spec's §4.2 wording: `n = iterate(collatz_seed, k + 1)` (note `k+1`),
`a = (n | 1) mod M` replaced by `1` if the residue is `0` and again by `1`
if it is not coprime to `M`, and `b = (n >> 3) mod M`. -/
def specAffineParams (M seed k : ℤ) : ℤ × ℤ :=
  let n := collatz_iter seed (k + 1)
  let a0 := lor1 n % M
  let a1 := if a0 = 0 then 1 else a0
  let a2 := if Int.gcd a1 M = 1 then a1 else 1
  (a2, shr3 n % M)

/-- A configuration drawn from the repo's own property-test generators
(`BackoffConfig(slots_M=32, collatz_seed=1, slot_ms=1, base_seconds=0.05)`,
`cap_seconds` left at its default `10.0`). -/
def bijTestCfg : BackoffConfig := { slots_M := 32, collatz_seed := 1 }

/-- A valid configuration whose modulus is not a power of two and whose
seed makes the odd-forced residue share a factor with `slots_M`
(`n = collatz_iter 9 1 = 14`, `(14 | 1) % 9 = 6`, `gcd 6 9 = 3`). -/
def cfg9 : BackoffConfig := { slots_M := 9, collatz_seed := 9 }

/-! ## Helper lemmas -/

lemma rat_floor_eq_intFloor (q : ℚ) : q.floor = ⌊q⌋ := by
  rw [Rat.floor_def', ← Rat.floor_def]

lemma pyRound_def' (q : ℚ) :
    pyRound q =
      if q - (⌊q⌋ : ℚ) < 1/2 then ⌊q⌋
      else if 1/2 < q - (⌊q⌋ : ℚ) then ⌊q⌋ + 1
      else if ⌊q⌋ % 2 = 0 then ⌊q⌋ else ⌊q⌋ + 1 := by
  simp only [pyRound, rat_floor_eq_intFloor]

lemma pyRound_intCast (z : ℤ) : pyRound ((z : ℚ)) = z := by
  rw [pyRound_def']
  norm_num

lemma pyRound_eq_of_eq_intCast {q : ℚ} {z : ℤ} (h : q = (z : ℚ)) : pyRound q = z :=
  h ▸ pyRound_intCast z

lemma pyRound_nonneg {q : ℚ} (h : 0 ≤ q) : 0 ≤ pyRound q := by
  have h0 : 0 ≤ ⌊q⌋ := Int.floor_nonneg.mpr h
  rw [pyRound_def']
  split_ifs <;> omega

lemma validate_eq_ok (cfg : BackoffConfig) (h1 : 0 < cfg.base_seconds)
    (h2 : 0 < cfg.slot_ms) (h3 : 1 < cfg.slots_M) (h4 : 0 < cfg.cap_seconds) :
    cfg.validate = .ok () := by
  unfold BackoffConfig.validate
  rw [if_neg (not_le.mpr h1), if_neg (not_le.mpr h2), if_neg (not_le.mpr h3),
    if_neg (not_le.mpr h4)]

lemma init_eq_ok (cfg : BackoffConfig) (h1 : 0 < cfg.base_seconds)
    (h2 : 0 < cfg.slot_ms) (h3 : 1 < cfg.slots_M) (h4 : 0 < cfg.cap_seconds) :
    CollatzBackoff.init cfg = .ok ⟨cfg⟩ := by
  unfold CollatzBackoff.init
  rw [validate_eq_ok cfg h1 h2 h3 h4]

lemma affine_params_fst (self : CollatzBackoff) (k : ℤ) :
    (self.affine_params k).1 =
      if Int.gcd
          (if lor1 (collatz_iter self.cfg.collatz_seed (k + 1)) % self.cfg.slots_M = 0
           then 1
           else lor1 (collatz_iter self.cfg.collatz_seed (k + 1)) % self.cfg.slots_M)
          self.cfg.slots_M ≠ 1
      then 1
      else if lor1 (collatz_iter self.cfg.collatz_seed (k + 1)) % self.cfg.slots_M = 0
           then 1
           else lor1 (collatz_iter self.cfg.collatz_seed (k + 1)) % self.cfg.slots_M := rfl

lemma affine_params_snd (self : CollatzBackoff) (k : ℤ) :
    (self.affine_params k).2 =
      shr3 (collatz_iter self.cfg.collatz_seed (k + 1)) % self.cfg.slots_M := rfl

lemma affine_params_fst_bounds (self : CollatzBackoff) (k : ℤ)
    (hM : 1 < self.cfg.slots_M) :
    1 ≤ (self.affine_params k).1 ∧ (self.affine_params k).1 < self.cfg.slots_M := by
  have h1 : 0 ≤ lor1 (collatz_iter self.cfg.collatz_seed (k + 1)) % self.cfg.slots_M :=
    Int.emod_nonneg _ (by omega)
  have h2 : lor1 (collatz_iter self.cfg.collatz_seed (k + 1)) % self.cfg.slots_M <
      self.cfg.slots_M :=
    Int.emod_lt_of_pos _ (by omega)
  rw [affine_params_fst]
  split_ifs <;> constructor <;> omega

lemma int_gcd_one_left (m : ℤ) : Int.gcd 1 m = 1 := by
  simp [Int.gcd]

lemma affine_params_gcd (self : CollatzBackoff) (k : ℤ)
    (hM : 1 < self.cfg.slots_M) :
    Int.gcd (self.affine_params k).1 self.cfg.slots_M = 1 := by
  rw [affine_params_fst]
  by_cases hg : Int.gcd
      (if lor1 (collatz_iter self.cfg.collatz_seed (k + 1)) % self.cfg.slots_M = 0
       then 1
       else lor1 (collatz_iter self.cfg.collatz_seed (k + 1)) % self.cfg.slots_M)
      self.cfg.slots_M = 1
  · rw [if_neg (not_not.mpr hg)]
    exact hg
  · rw [if_pos hg]
    exact int_gcd_one_left _

/-- **C1**: for a valid configuration (`slots_M > 1`), any retry step `k ≥ 0`
and any `n` with `1 ≤ n ≤ slots_M`, the map `i ↦ offset_slot i k` is
injective on the ids `0, …, n-1`. -/
theorem offset_slot_injective (self : CollatzBackoff) (k n i j : ℤ)
    (hM : 1 < self.cfg.slots_M) (hk : 0 ≤ k) (hn1 : 1 ≤ n)
    (hn : n ≤ self.cfg.slots_M) (hi0 : 0 ≤ i) (hin : i < n) (hj0 : 0 ≤ j)
    (hjn : j < n) (heq : self.offset_slot i k = self.offset_slot j k) : i = j := by
  have hM0 : (0:ℤ) < self.cfg.slots_M := by omega
  have hg : Int.gcd (self.affine_params k).1 self.cfg.slots_M = 1 :=
    affine_params_gcd self k hM
  have h1 : Int.ModEq self.cfg.slots_M
      ((self.affine_params k).1 * i + (self.affine_params k).2)
      ((self.affine_params k).1 * j + (self.affine_params k).2) := heq
  have h2 : Int.ModEq self.cfg.slots_M
      ((self.affine_params k).1 * i) ((self.affine_params k).1 * j) :=
    h1.add_right_cancel' _
  have h3 := Int.ModEq.cancel_left_div_gcd hM0 h2
  rw [Int.gcd_comm, hg, Nat.cast_one, Int.ediv_one] at h3
  have hd : self.cfg.slots_M ∣ j - i := h3.dvd
  have h4 : j - i = 0 := Int.eq_zero_of_abs_lt_dvd hd (by rw [abs_lt]; omega)
  omega

/-- Witness for C1 at the default configuration, step 0, ids below n = 2. -/
theorem offset_slot_injective_witness :
    1 < (⟨defaultCfg⟩ : CollatzBackoff).cfg.slots_M ∧ (0 : ℤ) = 0 :=
  ⟨by decide,
    offset_slot_injective ⟨defaultCfg⟩ 0 2 0 0 (by decide) (by decide) (by decide)
      (by decide) (by decide) (by decide) (by decide) (by decide) rfl⟩

/-- **C2**: for any configuration with `slots_M > 1` (power of two or not,
any seed) and any `k ≥ 0`, `affine_params k` returns `(a, b)` with
`a ∈ [1, slots_M)`, `b ∈ [0, slots_M)` and `gcd a slots_M = 1`; whenever
the odd-forced residue `(n | 1) % slots_M` is not coprime to `slots_M`,
the returned multiplier is exactly `1`. -/
theorem affine_params_contract (self : CollatzBackoff) (k : ℤ)
    (hM : 1 < self.cfg.slots_M) (hk : 0 ≤ k) :
    1 ≤ (self.affine_params k).1 ∧ (self.affine_params k).1 < self.cfg.slots_M ∧
    0 ≤ (self.affine_params k).2 ∧ (self.affine_params k).2 < self.cfg.slots_M ∧
    Int.gcd (self.affine_params k).1 self.cfg.slots_M = 1 ∧
    (Int.gcd (lor1 (collatz_iter self.cfg.collatz_seed (k + 1)) % self.cfg.slots_M)
        self.cfg.slots_M ≠ 1 →
      (self.affine_params k).1 = 1) := by
  obtain ⟨ha1, ha2⟩ := affine_params_fst_bounds self k hM
  refine ⟨ha1, ha2, ?_, ?_, affine_params_gcd self k hM, ?_⟩
  · rw [affine_params_snd]
    exact Int.emod_nonneg _ (by omega)
  · rw [affine_params_snd]
    exact Int.emod_lt_of_pos _ (by omega)
  · intro hbad
    rw [affine_params_fst]
    by_cases h0 : lor1 (collatz_iter self.cfg.collatz_seed (k + 1)) % self.cfg.slots_M = 0
    · rw [if_pos h0, if_neg (not_not.mpr (int_gcd_one_left _))]
    · rw [if_neg h0, if_pos hbad]

/-- Witness for C2 at the default configuration and step 0. -/
theorem affine_params_contract_witness :
    (1 < (⟨defaultCfg⟩ : CollatzBackoff).cfg.slots_M ∧ (0:ℤ) ≤ 0) ∧
    (1 ≤ (CollatzBackoff.affine_params ⟨defaultCfg⟩ 0).1 ∧
      (CollatzBackoff.affine_params ⟨defaultCfg⟩ 0).1 < (⟨defaultCfg⟩ : CollatzBackoff).cfg.slots_M ∧
      0 ≤ (CollatzBackoff.affine_params ⟨defaultCfg⟩ 0).2 ∧
      (CollatzBackoff.affine_params ⟨defaultCfg⟩ 0).2 < (⟨defaultCfg⟩ : CollatzBackoff).cfg.slots_M ∧
      Int.gcd (CollatzBackoff.affine_params ⟨defaultCfg⟩ 0).1
        (⟨defaultCfg⟩ : CollatzBackoff).cfg.slots_M = 1 ∧
      (Int.gcd (lor1 (collatz_iter (⟨defaultCfg⟩ : CollatzBackoff).cfg.collatz_seed (0 + 1)) %
            (⟨defaultCfg⟩ : CollatzBackoff).cfg.slots_M)
          (⟨defaultCfg⟩ : CollatzBackoff).cfg.slots_M ≠ 1 →
        (CollatzBackoff.affine_params ⟨defaultCfg⟩ 0).1 = 1)) :=
  ⟨⟨by decide, by decide⟩, affine_params_contract ⟨defaultCfg⟩ 0 (by decide) (by decide)⟩

/-- **C4**: `affine_params k` coincides with the spec's reference
definition (same `k+1` iteration count, same odd-forcing, zero fixup,
`n >> 3` additive term and gcd fallback). -/
theorem affine_params_eq_specAffineParams (self : CollatzBackoff) (k : ℤ)
    (hM : 1 < self.cfg.slots_M) (hk : 0 ≤ k) :
    self.affine_params k =
      specAffineParams self.cfg.slots_M self.cfg.collatz_seed k := by
  by_cases hg : Int.gcd
      (if lor1 (collatz_iter self.cfg.collatz_seed (k + 1)) % self.cfg.slots_M = 0
       then 1
       else lor1 (collatz_iter self.cfg.collatz_seed (k + 1)) % self.cfg.slots_M)
      self.cfg.slots_M = 1 <;>
    simp [CollatzBackoff.affine_params, specAffineParams, hg]

/-- Witness for C4 at the default configuration and step 0. -/
theorem affine_params_eq_specAffineParams_witness :
    (1 < (⟨defaultCfg⟩ : CollatzBackoff).cfg.slots_M ∧ (0:ℤ) ≤ 0) ∧
    CollatzBackoff.affine_params ⟨defaultCfg⟩ 0 =
      specAffineParams (⟨defaultCfg⟩ : CollatzBackoff).cfg.slots_M
        (⟨defaultCfg⟩ : CollatzBackoff).cfg.collatz_seed 0 :=
  ⟨⟨by decide, by decide⟩,
    affine_params_eq_specAffineParams ⟨defaultCfg⟩ 0 (by decide) (by decide)⟩

/-- **C5**: `collatz_iter seed k` applies `collatz_step` exactly `k` times
(`collatz_iterN seed k = collatz_step^[k] seed`, and the `ℤ`-indexed
`collatz_iter` agrees on natural counts), `collatz_iter seed 0 = seed`,
and seed `0` is a valid degenerate input with `collatz_iter 0 k = 0`. -/
theorem collatz_iter_spec (seed : ℤ) (k : ℕ) :
    collatz_iterN seed k = collatz_step^[k] seed ∧
    collatz_iter seed (k : ℤ) = collatz_iterN seed k ∧
    collatz_iter seed 0 = seed ∧
    collatz_iter 0 (k : ℤ) = 0 := by
  have hiter : ∀ m : ℕ, collatz_iterN seed m = collatz_step^[m] seed := by
    intro m
    induction m with
    | zero => rfl
    | succ m ih => rw [collatz_iterN, ih, Function.iterate_succ_apply']
  have hzero : ∀ m : ℕ, collatz_iterN 0 m = 0 := by
    intro m
    induction m with
    | zero => rfl
    | succ m ih => rw [collatz_iterN, ih]; decide
  refine ⟨hiter k, ?_, rfl, ?_⟩
  · unfold collatz_iter
    rw [Int.toNat_natCast]
  · unfold collatz_iter
    rw [Int.toNat_natCast]
    exact hzero k

/-- **C6**: engine construction fails if and only if one of the four
config bounds is violated (`base_seconds ≤ 0`, `slot_ms ≤ 0`,
`slots_M ≤ 1`, `cap_seconds ≤ 0`); otherwise it succeeds and stores the
config unchanged — `collatz_seed` is unconstrained. -/
theorem init_error_iff_bounds_violated (cfg : BackoffConfig) :
    ((∃ e, CollatzBackoff.init cfg = .error e) ↔
      (cfg.base_seconds ≤ 0 ∨ cfg.slot_ms ≤ 0 ∨ cfg.slots_M ≤ 1 ∨
        cfg.cap_seconds ≤ 0)) ∧
    (CollatzBackoff.init cfg = .ok ⟨cfg⟩ ↔
      ¬(cfg.base_seconds ≤ 0 ∨ cfg.slot_ms ≤ 0 ∨ cfg.slots_M ≤ 1 ∨
        cfg.cap_seconds ≤ 0)) := by
  unfold CollatzBackoff.init BackoffConfig.validate
  split_ifs with h1 h2 h3 h4 <;> simp_all

/-- **C8**: `wait_seconds` is exactly `wait_micros / 1_000_000`, a single
division of the integer-microsecond result, with no independent
floating-point path. -/
theorem wait_seconds_eq_wait_micros_div (self : CollatzBackoff)
    (node_id retry_k : ℤ) :
    self.wait_seconds node_id retry_k =
      (self.wait_micros node_id retry_k : ℚ) / 1000000 := rfl

/-- **C10** (implicit): `offset_slot` depends on the id only through its
residue mod `slots_M`: congruent ids get the same slot, and in particular
`offset_slot (id + slots_M) k = offset_slot id k`. -/
theorem offset_slot_mod_invariant (self : CollatzBackoff) (k id1 id2 : ℤ)
    (hM : 1 < self.cfg.slots_M) (hk : 0 ≤ k)
    (hcong : id1 % self.cfg.slots_M = id2 % self.cfg.slots_M) :
    self.offset_slot id1 k = self.offset_slot id2 k ∧
    self.offset_slot (id1 + self.cfg.slots_M) k = self.offset_slot id1 k := by
  have key : ∀ x y : ℤ, x % self.cfg.slots_M = y % self.cfg.slots_M →
      self.offset_slot x k = self.offset_slot y k := by
    intro x y hxy
    show ((self.affine_params k).1 * x + (self.affine_params k).2) % self.cfg.slots_M =
      ((self.affine_params k).1 * y + (self.affine_params k).2) % self.cfg.slots_M
    exact (Int.ModEq.mul_left _ hxy).add_right _
  refine ⟨key id1 id2 hcong, key _ _ ?_⟩
  simpa using Int.add_mul_emod_self_left id1 self.cfg.slots_M 1

/-- Witness for C10 at the default configuration, ids 3 and 3 + 1024. -/
theorem offset_slot_mod_invariant_witness :
    (1 < (⟨defaultCfg⟩ : CollatzBackoff).cfg.slots_M ∧ (0:ℤ) ≤ 0 ∧
      (1027 : ℤ) % (⟨defaultCfg⟩ : CollatzBackoff).cfg.slots_M =
        (3 : ℤ) % (⟨defaultCfg⟩ : CollatzBackoff).cfg.slots_M) ∧
    (CollatzBackoff.offset_slot ⟨defaultCfg⟩ 1027 0 =
        CollatzBackoff.offset_slot ⟨defaultCfg⟩ 3 0 ∧
      CollatzBackoff.offset_slot ⟨defaultCfg⟩ (1027 + (⟨defaultCfg⟩ : CollatzBackoff).cfg.slots_M) 0 =
        CollatzBackoff.offset_slot ⟨defaultCfg⟩ 1027 0) :=
  ⟨⟨by decide, by decide, by decide⟩,
    offset_slot_mod_invariant ⟨defaultCfg⟩ 0 1027 3 (by decide) (by decide) (by decide)⟩

lemma offset_slot_eq (self : CollatzBackoff) (node_id retry_k : ℤ) :
    self.offset_slot node_id retry_k =
      ((self.affine_params retry_k).1 * node_id + (self.affine_params retry_k).2) %
        self.cfg.slots_M := rfl

lemma wait_micros_eq (self : CollatzBackoff) (node_id retry_k : ℤ) :
    self.wait_micros node_id retry_k =
      min (pyRound (self.cfg.cap_seconds * 1000000))
        (pyRound (self.cfg.base_seconds * (2 : ℚ) ^ retry_k * 1000000) +
          self.offset_slot node_id retry_k * self.cfg.slot_ms * 1000) := rfl

lemma wait_micros_eval (self : CollatzBackoff) (node_id retry_k zb zc : ℤ)
    (hb : self.cfg.base_seconds * (2 : ℚ) ^ retry_k * 1000000 = (zb : ℚ))
    (hc : self.cfg.cap_seconds * 1000000 = (zc : ℚ)) :
    self.wait_micros node_id retry_k =
      min zc (zb + self.offset_slot node_id retry_k * self.cfg.slot_ms * 1000) := by
  rw [wait_micros_eq, pyRound_eq_of_eq_intCast hb, pyRound_eq_of_eq_intCast hc]

/-- **C3** fails on the code: at the repo's own test configuration
(`slots_M = 32`, `collatz_seed = 1`, `slot_ms = 1`, `base_seconds = 0.05`,
`cap_seconds = 10.0`) and retry step `k = 8`, the exponential base
(12.8 s = 12 800 000 µs) already exceeds the 10 s cap, so ids 0 and 1 both
get the capped wait of 10 000 000 µs — a collision inside `k ∈ [0, 12)`. -/
theorem wait_micros_cap_collision :
    CollatzBackoff.wait_micros ⟨bijTestCfg⟩ 0 8 =
      CollatzBackoff.wait_micros ⟨bijTestCfg⟩ 1 8 ∧
    CollatzBackoff.wait_micros ⟨bijTestCfg⟩ 0 8 = 10000000 := by
  have hb : (⟨bijTestCfg⟩ : CollatzBackoff).cfg.base_seconds * (2 : ℚ) ^ (8:ℤ) * 1000000 =
      ((12800000 : ℤ) : ℚ) := by
    norm_num [bijTestCfg]
  have hc : (⟨bijTestCfg⟩ : CollatzBackoff).cfg.cap_seconds * 1000000 =
      ((10000000 : ℤ) : ℚ) := by
    norm_num [bijTestCfg]
  constructor
  · rw [wait_micros_eval ⟨bijTestCfg⟩ 0 8 12800000 10000000 hb hc,
      wait_micros_eval ⟨bijTestCfg⟩ 1 8 12800000 10000000 hb hc]
    decide
  · rw [wait_micros_eval ⟨bijTestCfg⟩ 0 8 12800000 10000000 hb hc]
    decide

/-- **C7** fails on the code: there is no negative-argument check anywhere
in `offset_slot`/`wait_micros` — at the default configuration a negative
id is processed like any other integer, yielding the slot
`(41 * (-1) + 5) % 1024 = 988` and a normal wait of 1 038 000 µs instead
of an `InvalidArgument` rejection. -/
theorem schedule_fns_accept_negative_id :
    CollatzBackoff.offset_slot ⟨defaultCfg⟩ (-1) 0 = 988 ∧
    CollatzBackoff.wait_micros ⟨defaultCfg⟩ (-1) 0 = 1038000 := by
  have hb : (⟨defaultCfg⟩ : CollatzBackoff).cfg.base_seconds * (2 : ℚ) ^ (0:ℤ) * 1000000 =
      ((50000 : ℤ) : ℚ) := by
    norm_num [defaultCfg]
  have hc : (⟨defaultCfg⟩ : CollatzBackoff).cfg.cap_seconds * 1000000 =
      ((10000000 : ℤ) : ℚ) := by
    norm_num [defaultCfg]
  refine ⟨by decide, ?_⟩
  rw [wait_micros_eval ⟨defaultCfg⟩ (-1) 0 50000 10000000 hb hc]
  decide

/-- **C7 (amended)**: the schedule functions perform no argument
validation and never raise — they are total; for a valid configuration
and non-negative `id`, `k`, `wait_micros` is a non-negative integer
bounded by `round(cap_seconds * 1_000_000)` and `offset_slot` lands in
`[0, slots_M)`. -/
theorem wait_micros_total_and_bounded (self : CollatzBackoff) (node_id retry_k : ℤ)
    (h1 : 0 < self.cfg.base_seconds) (h2 : 0 < self.cfg.slot_ms)
    (h3 : 1 < self.cfg.slots_M) (h4 : 0 < self.cfg.cap_seconds)
    (hid : 0 ≤ node_id) (hk : 0 ≤ retry_k) :
    0 ≤ self.wait_micros node_id retry_k ∧
    self.wait_micros node_id retry_k ≤ pyRound (self.cfg.cap_seconds * 1000000) ∧
    0 ≤ self.offset_slot node_id retry_k ∧
    self.offset_slot node_id retry_k < self.cfg.slots_M := by
  have hoff0 : 0 ≤ self.offset_slot node_id retry_k := by
    rw [offset_slot_eq]
    exact Int.emod_nonneg _ (by omega)
  have hoff1 : self.offset_slot node_id retry_k < self.cfg.slots_M := by
    rw [offset_slot_eq]
    exact Int.emod_lt_of_pos _ (by omega)
  have hbase0 : 0 ≤ pyRound (self.cfg.base_seconds * (2 : ℚ) ^ retry_k * 1000000) :=
    pyRound_nonneg (by positivity)
  have hcap0 : 0 ≤ pyRound (self.cfg.cap_seconds * 1000000) :=
    pyRound_nonneg (by positivity)
  have hjit : 0 ≤ self.offset_slot node_id retry_k * self.cfg.slot_ms * 1000 :=
    mul_nonneg (mul_nonneg hoff0 (le_of_lt h2)) (by norm_num)
  refine ⟨?_, ?_, hoff0, hoff1⟩
  · rw [wait_micros_eq]
    exact le_min hcap0 (add_nonneg hbase0 hjit)
  · rw [wait_micros_eq]
    exact min_le_left _ _

/-- Witness for the amended C7 at the default configuration. -/
theorem wait_micros_total_and_bounded_witness :
    (0 < (⟨defaultCfg⟩ : CollatzBackoff).cfg.base_seconds ∧
      0 < (⟨defaultCfg⟩ : CollatzBackoff).cfg.slot_ms ∧
      1 < (⟨defaultCfg⟩ : CollatzBackoff).cfg.slots_M ∧
      0 < (⟨defaultCfg⟩ : CollatzBackoff).cfg.cap_seconds ∧
      (0:ℤ) ≤ 0 ∧ (0:ℤ) ≤ 0) ∧
    (0 ≤ CollatzBackoff.wait_micros ⟨defaultCfg⟩ 0 0 ∧
      CollatzBackoff.wait_micros ⟨defaultCfg⟩ 0 0 ≤
        pyRound ((⟨defaultCfg⟩ : CollatzBackoff).cfg.cap_seconds * 1000000) ∧
      0 ≤ CollatzBackoff.offset_slot ⟨defaultCfg⟩ 0 0 ∧
      CollatzBackoff.offset_slot ⟨defaultCfg⟩ 0 0 <
        (⟨defaultCfg⟩ : CollatzBackoff).cfg.slots_M) :=
  ⟨⟨by norm_num [defaultCfg], by decide, by decide, by norm_num [defaultCfg],
      le_refl 0, le_refl 0⟩,
    wait_micros_total_and_bounded ⟨defaultCfg⟩ 0 0 (by norm_num [defaultCfg])
      (by decide) (by decide) (by norm_num [defaultCfg]) (le_refl 0) (le_refl 0)⟩

lemma lor1_odd (n : ℤ) : lor1 n % 2 = 1 := by
  unfold lor1
  split_ifs with h <;> omega

lemma affine_params_pow_two (self : CollatzBackoff) (k : ℤ) (t : ℕ)
    (hM : 1 < self.cfg.slots_M) (hpow : self.cfg.slots_M = 2 ^ t) :
    self.affine_params k =
      Script.affine_params_from_collatz k self.cfg.collatz_seed self.cfg.slots_M := by
  have ht : t ≠ 0 := by
    rintro rfl
    rw [hpow] at hM
    norm_num at hM
  have h2M : (2:ℤ) ∣ self.cfg.slots_M := hpow ▸ dvd_pow_self 2 ht
  have hA : lor1 (collatz_iter self.cfg.collatz_seed (k + 1)) % self.cfg.slots_M % 2 = 1 := by
    rw [Int.emod_emod_of_dvd _ h2M]
    exact lor1_odd _
  have hA0 : lor1 (collatz_iter self.cfg.collatz_seed (k + 1)) % self.cfg.slots_M ≠ 0 := by
    intro h
    rw [h] at hA
    norm_num at hA
  have hgcd : Int.gcd (lor1 (collatz_iter self.cfg.collatz_seed (k + 1)) % self.cfg.slots_M)
      self.cfg.slots_M = 1 := by
    have hodd : Odd (lor1 (collatz_iter self.cfg.collatz_seed (k + 1)) % self.cfg.slots_M) :=
      Int.odd_iff.mpr hA
    have hoddN : Odd (lor1 (collatz_iter self.cfg.collatz_seed (k + 1)) %
        self.cfg.slots_M).natAbs := Int.natAbs_odd.mpr hodd
    have hcop2 : Nat.Coprime (lor1 (collatz_iter self.cfg.collatz_seed (k + 1)) %
        self.cfg.slots_M).natAbs 2 := Nat.coprime_two_right.mpr hoddN
    have hcop : Nat.Coprime (lor1 (collatz_iter self.cfg.collatz_seed (k + 1)) %
        self.cfg.slots_M).natAbs (2 ^ t) :=
      (Nat.coprime_pow_right_iff (Nat.pos_of_ne_zero ht) _ _).mpr hcop2
    have habs : (self.cfg.slots_M).natAbs = 2 ^ t := by
      rw [hpow, Int.natAbs_pow]
      rfl
    show Nat.gcd _ (self.cfg.slots_M).natAbs = 1
    rw [habs]
    exact hcop
  simp [CollatzBackoff.affine_params, Script.affine_params_from_collatz, hA0, hgcd]

lemma collatz_perm_offset_eq_offset_slot (self : CollatzBackoff) (node_id retry_k : ℤ)
    (t : ℕ) (hM : 1 < self.cfg.slots_M) (hpow : self.cfg.slots_M = 2 ^ t) :
    Script.collatz_perm_offset node_id retry_k self.cfg.slots_M self.cfg.collatz_seed =
      self.offset_slot node_id retry_k := by
  unfold Script.collatz_perm_offset
  rw [← affine_params_pow_two self retry_k t hM hpow, offset_slot_eq]

lemma script_seconds_eq_wait_seconds (cfg : BackoffConfig) (node_id retry_k : ℤ)
    (t : ℕ) (zb zc : ℤ) (hM : 1 < cfg.slots_M) (hpow : cfg.slots_M = 2 ^ t)
    (hb : cfg.base_seconds * (2 : ℚ) ^ retry_k * 1000000 = (zb : ℚ))
    (hc : cfg.cap_seconds * 1000000 = (zc : ℚ)) :
    Script.collatz_seeded_backoff_seconds node_id retry_k cfg =
      CollatzBackoff.wait_seconds ⟨cfg⟩ node_id retry_k := by
  have hproj : (⟨cfg⟩ : CollatzBackoff).cfg = cfg := rfl
  have hoff := collatz_perm_offset_eq_offset_slot ⟨cfg⟩ node_id retry_k t
    (by rw [hproj]; exact hM) (by rw [hproj]; exact hpow)
  rw [hproj] at hoff
  have hbase : cfg.base_seconds * (2 : ℚ) ^ retry_k = (zb : ℚ) / 1000000 := by
    rw [eq_div_iff (by norm_num : (1000000:ℚ) ≠ 0)]
    exact hb
  have hcap : cfg.cap_seconds = (zc : ℚ) / 1000000 := by
    rw [eq_div_iff (by norm_num : (1000000:ℚ) ≠ 0)]
    exact hc
  unfold Script.collatz_seeded_backoff_seconds CollatzBackoff.wait_seconds
  rw [hoff, wait_micros_eval ⟨cfg⟩ node_id retry_k zb zc
    (by rw [hproj]; exact hb) (by rw [hproj]; exact hc)]
  rw [hproj, hbase, hcap]
  push_cast
  rw [← min_div_div_right (by norm_num : (0:ℚ) ≤ 1000000)]
  congr 1
  ring

/-- **C9** fails on the code: at the valid configuration
`slots_M = 9, collatz_seed = 9` (defaults otherwise), the script variant
lacks the gcd fallback that the packaged engine has, so for id 1 at step 0
the script assigns slot 7 while the engine assigns slot 2, and the two
module-level `collatz_seeded_backoff_seconds` return 0.057 s versus
0.052 s. -/
theorem script_core_disagree :
    CollatzBackoff.offset_slot ⟨cfg9⟩ 1 0 = 2 ∧
    Script.collatz_perm_offset 1 0 cfg9.slots_M cfg9.collatz_seed = 7 ∧
    Script.collatz_seeded_backoff_seconds 1 0 cfg9 = 57/1000 ∧
    collatz_seeded_backoff_seconds 1 0 cfg9 = .ok (13/250) ∧
    (57/1000 : ℚ) ≠ 13/250 := by
  refine ⟨by decide, by decide, ?_, ?_, by norm_num⟩
  · unfold Script.collatz_seeded_backoff_seconds
    have h7 : Script.collatz_perm_offset 1 0 cfg9.slots_M cfg9.collatz_seed = 7 := by decide
    rw [h7]
    show min cfg9.cap_seconds
        (cfg9.base_seconds * (2 : ℚ) ^ (0:ℤ) + ((7 * cfg9.slot_ms : ℤ) : ℚ) / 1000) = 57/1000
    rw [show cfg9.base_seconds * (2 : ℚ) ^ (0:ℤ) + ((7 * cfg9.slot_ms : ℤ) : ℚ) / 1000 =
        57/1000 by norm_num [cfg9]]
    exact min_eq_right (by norm_num [cfg9])
  · unfold collatz_seeded_backoff_seconds
    rw [init_eq_ok cfg9 (by norm_num [cfg9]) (by decide) (by decide) (by norm_num [cfg9])]
    show Except.ok (CollatzBackoff.wait_seconds ⟨cfg9⟩ 1 0) = Except.ok ((13:ℚ)/250)
    have hw : CollatzBackoff.wait_seconds ⟨cfg9⟩ 1 0 = 13/250 := by
      unfold CollatzBackoff.wait_seconds
      rw [wait_micros_eval ⟨cfg9⟩ 1 0 50000 10000000 (by norm_num [cfg9]) (by norm_num [cfg9])]
      rw [show (min 10000000 (50000 + CollatzBackoff.offset_slot ⟨cfg9⟩ 1 0 *
          (⟨cfg9⟩ : CollatzBackoff).cfg.slot_ms * 1000) : ℤ) = 52000 from by decide]
      norm_num
    rw [hw]

/-- **C9 (amended)**: the two implementations agree wherever the
counterexample's two defects are excluded — for every valid configuration
whose `slots_M` is a power of two (so the script's missing gcd fallback
can never fire) and whose `base_seconds * 2^k * 10^6` and
`cap_seconds * 10^6` are exact integers (so the core's microsecond
rounding is lossless), the module-level schedule functions return the
same value and `collatz_perm_offset` equals `offset_slot`. -/
theorem script_core_agree_on_pow_two (cfg : BackoffConfig) (node_id retry_k : ℤ)
    (t : ℕ) (zb zc : ℤ) (h1 : 0 < cfg.base_seconds) (h2 : 0 < cfg.slot_ms)
    (h3 : 1 < cfg.slots_M) (h4 : 0 < cfg.cap_seconds) (hid : 0 ≤ node_id)
    (hk : 0 ≤ retry_k) (hpow : cfg.slots_M = 2 ^ t)
    (hb : cfg.base_seconds * (2 : ℚ) ^ retry_k * 1000000 = (zb : ℚ))
    (hc : cfg.cap_seconds * 1000000 = (zc : ℚ)) :
    collatz_seeded_backoff_seconds node_id retry_k cfg =
      .ok (Script.collatz_seeded_backoff_seconds node_id retry_k cfg) ∧
    Script.collatz_perm_offset node_id retry_k cfg.slots_M cfg.collatz_seed =
      CollatzBackoff.offset_slot ⟨cfg⟩ node_id retry_k := by
  constructor
  · unfold collatz_seeded_backoff_seconds
    rw [init_eq_ok cfg h1 h2 h3 h4]
    show Except.ok (CollatzBackoff.wait_seconds ⟨cfg⟩ node_id retry_k) =
      Except.ok (Script.collatz_seeded_backoff_seconds node_id retry_k cfg)
    rw [script_seconds_eq_wait_seconds cfg node_id retry_k t zb zc h3 hpow hb hc]
  · exact collatz_perm_offset_eq_offset_slot ⟨cfg⟩ node_id retry_k t h3 hpow

/-- Witness for the amended C9 at the default configuration, id 7, step 0. -/
theorem script_core_agree_on_pow_two_witness :
    (0 < defaultCfg.base_seconds ∧ 0 < defaultCfg.slot_ms ∧ 1 < defaultCfg.slots_M ∧
      0 < defaultCfg.cap_seconds ∧ (0:ℤ) ≤ 7 ∧ (0:ℤ) ≤ 0 ∧
      defaultCfg.slots_M = 2 ^ 10 ∧
      defaultCfg.base_seconds * (2 : ℚ) ^ (0:ℤ) * 1000000 = ((50000 : ℤ) : ℚ) ∧
      defaultCfg.cap_seconds * 1000000 = ((10000000 : ℤ) : ℚ)) ∧
    (collatz_seeded_backoff_seconds 7 0 defaultCfg =
        .ok (Script.collatz_seeded_backoff_seconds 7 0 defaultCfg) ∧
      Script.collatz_perm_offset 7 0 defaultCfg.slots_M defaultCfg.collatz_seed =
        CollatzBackoff.offset_slot ⟨defaultCfg⟩ 7 0) :=
  ⟨⟨by norm_num [defaultCfg], by decide, by decide, by norm_num [defaultCfg], by decide,
      le_refl 0, by decide, by norm_num [defaultCfg], by norm_num [defaultCfg]⟩,
    script_core_agree_on_pow_two defaultCfg 7 0 10 50000 10000000
      (by norm_num [defaultCfg]) (by decide) (by decide) (by norm_num [defaultCfg])
      (by decide) (le_refl 0) (by decide) (by norm_num [defaultCfg])
      (by norm_num [defaultCfg])⟩
